import Mathlib

/-!
Shallow embedding of the slide composition and rendering engine of
`tui-slides` (`src/components/slides.rs`, data model in `src/enums.rs`).

Modelling conventions:
- `u16` and `usize` arithmetic follows release-build Rust semantics:
  additions and subtractions wrap modulo `2^16` / `2^64` (written with an
  explicit `% U16` / `% USIZE`).
- Operations that can panic (`Vec` indexing out of bounds, `%` by zero,
  `Option::unwrap` on `None`) are modelled as functions returning `Option`,
  with `none` standing for the panic.
- The terminal, the image decoder and the file system are external
  collaborators: file reads are modelled by passing the decoded deck as an
  argument, and a prepared terminal image handle is modelled by the content
  item it was prepared from.
-/

namespace TuiSlides

/-- Modulus of `u16` arithmetic. -/
def U16 : Nat := 2 ^ 16

/-- Modulus of `usize` arithmetic (64-bit target). -/
def USIZE : Nat := 2 ^ 64

/-- Embedding of `ratatui::layout::Rect`: four `u16` fields. -/
structure RectU16 where
  x : Nat
  y : Nat
  width : Nat
  height : Nat
deriving DecidableEq, Repr

/-- Embedding of `SlideContentType` (`src/enums.rs`). The copy of
`enums.rs` under `src/` declares only `Paragraph`, `BigText`, `Line`,
`Image`; `slides.rs` additionally matches on `Block`, `Sparkline` and
`CodeHighlight`, and the spec's schema (§6) lists all seven kinds, so the
three extra variants are modelled from the spec. -/
inductive SlideContentType where
  | Paragraph
  | BigText
  | Line
  | Image
  | Block
  | Sparkline
  | CodeHighlight
deriving DecidableEq, Repr

/-- Embedding of `ContentJson` (`src/enums.rs`). The fields `data` and
`color` are absent from the copy of `enums.rs` under `src/` but are read by
`slides.rs` (`item.data`, `item.color`); they are modelled from the spec's
schema (§6): `data: array<uint64>|null`, `color: string|null`. -/
structure ContentJson where
  type_ : SlideContentType
  content : Option String
  rect : Option RectU16
  data : Option (List Nat)
  color : Option String
deriving DecidableEq, Repr

/-- Embedding of `SlideJson` (`src/enums.rs`). -/
structure SlideJson where
  title : Option String
  content : List ContentJson
deriving DecidableEq, Repr

/-- Embedding of the box-size record. `slides.rs` reads
`slides.box_size.width` and `slides.box_size.height`. -/
structure BoxSizeJson where
  width : Nat
  height : Nat
deriving DecidableEq, Repr

/-- Embedding of `SlidesJson` (`src/enums.rs`): the whole deck. -/
structure SlidesJson where
  box_size : BoxSizeJson
  slides : List SlideJson
deriving DecidableEq, Repr

/-- A prepared terminal image handle (`Box<dyn StatefulProtocol>` produced
by `Picker::new_resize_protocol`). The protocol state is external; the
handle is identified by the content item it was prepared from. -/
structure PreparedImage where
  item : ContentJson
deriving DecidableEq, Repr

/-- Embedding of the widget sum type `ReturnSlideWidget` (`src/enums.rs`);
the variants `Block`, `Sparkline` and `CodeHighlight` are used by
`slides.rs` and modelled from the spec (§4.3). Widget payloads are reduced
to the data the draw pass dispatches on. -/
inductive ReturnSlideWidget where
  | Paragraph (s : String)
  | BigText (s : String)
  | Line (s : String)
  | Image (item : ContentJson)
  | Block
  | Sparkline
  | CodeHighlight (s : String)
deriving DecidableEq, Repr

/-- The state of the `Slides` component (`src/components/slides.rs`,
struct `Slides`). The `action_tx` channel and the `picker` carry no
engine-visible state and are omitted. -/
structure Slides where
  json_slides : String
  slides : Option SlidesJson
  slide_index : Nat
  slide_count : Nat
  images : List PreparedImage
deriving DecidableEq, Repr

/-- The subset of `Action` the `Slides::update` handler matches on;
`action.rs` is not under `src/`, and `other` stands for every action the
wildcard arm ignores. -/
inductive Action where
  | Next
  | Previous
  | Reload
  | other
deriving DecidableEq, Repr

/-- Modelled from the spec: `make_slide_image` (module `slide_builder`,
not under `src/`). Per §4.3 the content-item-to-visual factory returns the
raw-image variant for every `Image`-kind item (decode failures panic, which
the surrounding embedding does not reach on well-formed decks). -/
def make_slide_image (item : ContentJson) (_json_slides : String) :
    ReturnSlideWidget :=
  ReturnSlideWidget.Image item

/-- Modelled from the spec: `make_slide_content` (module `slide_builder`,
not under `src/`). Per §4.3 it is a pure mapping from a content item's kind
to the corresponding widget variant. -/
def make_slide_content (item : ContentJson) (json_slides : String) :
    ReturnSlideWidget :=
  match item.type_ with
  | SlideContentType.Paragraph =>
      ReturnSlideWidget.Paragraph (item.content.getD "")
  | SlideContentType.BigText => ReturnSlideWidget.BigText (item.content.getD "")
  | SlideContentType.Line => ReturnSlideWidget.Line (item.content.getD "")
  | SlideContentType.Image => make_slide_image item json_slides
  | SlideContentType.Block => ReturnSlideWidget.Block
  | SlideContentType.Sparkline => ReturnSlideWidget.Sparkline
  | SlideContentType.CodeHighlight =>
      ReturnSlideWidget.CodeHighlight (item.content.getD "")

/-- Embedding of `Picker::new_resize_protocol` (external crate
`ratatui_image`): prepares a decoded image for terminal display. -/
def new_resize_protocol (item : ContentJson) : PreparedImage :=
  PreparedImage.mk item

/-- Embedding of `Slides::get_json_slides` (slides.rs lines 58-73). The
file read and JSON parse are external; the decoded deck is the `deck`
argument. The function stores the deck and recomputes `slide_count`; it
does not touch `slide_index`. -/
def get_json_slides (s : Slides) (deck : SlidesJson) : Slides :=
  { s with slides := some deck, slide_count := deck.slides.length }

/-- Embedding of `Slides::get_slide` (slides.rs lines 75-83). When a deck
is loaded, `slides.slides[self.slide_index]` panics (`none`) if the index
is out of range; with no deck loaded it returns a default slide. -/
def get_slide (s : Slides) : Option SlideJson :=
  match s.slides with
  | some slides => slides.slides[s.slide_index]?
  | none => some (SlideJson.mk none [])

/-- Embedding of `Slides::get_slide_rect` (slides.rs lines 85-96). The
item offset is applied only under `if let Some(slides) = &self.slides`;
`x += ...` and `y += ...` are wrapping `u16` additions. -/
def get_slide_rect (s : Slides) (rect : RectU16) (item_rect : Option RectU16) :
    RectU16 :=
  match s.slides, item_rect with
  | some _, some r =>
      RectU16.mk ((rect.x + r.x) % U16) ((rect.y + r.y) % U16) r.width r.height
  | _, _ => rect

/-- The `for item in slide.content` loop of `Slides::store_images`
(slides.rs lines 105-113): pushes one prepared handle per `Image`-kind
item whose factory result is the `Image` variant, in content order. -/
def store_images_loop (json_slides : String) :
    List ContentJson → List PreparedImage
  | [] => []
  | item :: rest =>
      if item.type_ = SlideContentType.Image then
        match make_slide_image item json_slides with
        | ReturnSlideWidget.Image img =>
            new_resize_protocol img :: store_images_loop json_slides rest
        | _ => store_images_loop json_slides rest
      else store_images_loop json_slides rest

/-- Embedding of `Slides::store_images` (slides.rs lines 98-114). The
cache is cleared and rebuilt from the current slide.
`f_path.parent().unwrap()` panics when the deck path has no parent
(modelled: the empty path), and `get_slide` panics when the index is out of
range of a loaded deck. -/
def store_images (s : Slides) : Option Slides :=
  if s.json_slides = "" then none
  else
    match get_slide s with
    | none => none
    | some slide =>
        some { s with images := store_images_loop s.json_slides slide.content }

/-- The index computation of `Slides::next_slide` (slides.rs lines
117-118): `s_index = slide_index + 1` (wrapping `usize` add) then
`s_index %= slide_count`. Defined for `slide_count > 0`; the caller models
the `%`-by-zero panic. -/
def next_index (count i : Nat) : Nat :=
  ((i + 1) % USIZE) % count

/-- The index computation of `Slides::previous_slide` (slides.rs lines
125-130): `checked_sub(1)` is `none` exactly when the index is `0`, in
which case `slide_count - 1` is a wrapping `usize` subtraction. -/
def previous_index (count i : Nat) : Nat :=
  if i = 0 then ((count + USIZE) - 1) % USIZE else i - 1

/-- Embedding of `Slides::next_slide` (slides.rs lines 116-122): advance
the index, then rebuild the image cache. `%= slide_count` panics when
`slide_count == 0`. -/
def next_slide (s : Slides) : Option Slides :=
  if s.slide_count = 0 then none
  else
    store_images
      { s with slide_index := next_index s.slide_count s.slide_index }

/-- Embedding of `Slides::previous_slide` (slides.rs lines 124-134): step
the index back with wrap-around, then rebuild the image cache. -/
def previous_slide (s : Slides) : Option Slides :=
  store_images
    { s with slide_index := previous_index s.slide_count s.slide_index }

/-- The title text of `Slides::make_title` (slides.rs lines 136-148):
placeholder `"__title__"` overwritten by the slide's title when present.
The `BigText` widget construction around it is external
(`tui_big_text`). -/
def make_title (slide : SlideJson) : String :=
  match slide.title with
  | some title => title
  | none => "__title__"

/-- Embedding of `Slides::update` (slides.rs lines 220-235). `Reload`
re-reads the deck from disk (modelled by the `file_deck` argument) and
rebuilds the image cache; the wildcard arm leaves the state unchanged. -/
def update (s : Slides) (action : Action) (file_deck : SlidesJson) :
    Option Slides :=
  match action with
  | Action.Next => next_slide s
  | Action.Previous => previous_slide s
  | Action.Reload => store_images (get_json_slides s file_deck)
  | Action.other => some s

/-- The `data` defaulting of the draw loop (slides.rs lines 267-270):
`let mut data = vec![]; if let Some(d1) = d { data = d1; }`. -/
def resolve_data (d : Option (List Nat)) : List Nat :=
  match d with
  | some d1 => d1
  | none => []

/-- One positioned draw call issued by `Slides::draw` to the terminal
drawing capability. -/
inductive DrawCall where
  | title (text : String) (r : RectU16)
  | contentBlock (r : RectU16)
  | widget (w : ReturnSlideWidget) (r : RectU16)
  | imageBorder (r : RectU16)
  | image (img : PreparedImage) (r : RectU16)
  | sparkline (data : List Nat) (r : RectU16)
deriving DecidableEq, Repr

/-- The per-item render loop of `Slides::draw` (slides.rs lines 263-332),
carrying the running image counter `img_index`. For an `Image` widget the
bordered block rect is the item rect with `x -= 1`, `y -= 1`,
`width += 2` (wrapping `u16` arithmetic; `height` is not changed), drawn
before the cached handle `self.images[img_index]` (panic when out of
range). -/
def draw_items (s : Slides) (content : RectU16) :
    List ContentJson → Nat → Option (List DrawCall)
  | [], _ => some []
  | item :: rest, img_index =>
      let slide_rect := get_slide_rect s content item.rect
      let data := resolve_data item.data
      match make_slide_content item s.json_slides with
      | ReturnSlideWidget.Paragraph t =>
          Option.map (fun tail =>
              DrawCall.widget (ReturnSlideWidget.Paragraph t) slide_rect :: tail)
            (draw_items s content rest img_index)
      | ReturnSlideWidget.Line t =>
          Option.map (fun tail =>
              DrawCall.widget (ReturnSlideWidget.Line t) slide_rect :: tail)
            (draw_items s content rest img_index)
      | ReturnSlideWidget.BigText t =>
          Option.map (fun tail =>
              DrawCall.widget (ReturnSlideWidget.BigText t) slide_rect :: tail)
            (draw_items s content rest img_index)
      | ReturnSlideWidget.Image _ =>
          let b_rect := RectU16.mk ((slide_rect.x + (U16 - 1)) % U16)
            ((slide_rect.y + (U16 - 1)) % U16) ((slide_rect.width + 2) % U16)
            slide_rect.height
          match s.images[img_index]? with
          | none => none
          | some img =>
              Option.map (fun tail =>
                  DrawCall.imageBorder b_rect ::
                    DrawCall.image img slide_rect :: tail)
                (draw_items s content rest (img_index + 1))
      | ReturnSlideWidget.Block =>
          Option.map (fun tail =>
              DrawCall.widget ReturnSlideWidget.Block slide_rect :: tail)
            (draw_items s content rest img_index)
      | ReturnSlideWidget.Sparkline =>
          Option.map (fun tail =>
              DrawCall.sparkline data slide_rect :: tail)
            (draw_items s content rest img_index)
      | ReturnSlideWidget.CodeHighlight t =>
          Option.map (fun tail =>
              DrawCall.widget (ReturnSlideWidget.CodeHighlight t) slide_rect ::
                tail)
            (draw_items s content rest img_index)

/-- Embedding of `Slides::draw` (slides.rs lines 237-334), parametrised by
the content rectangle `content` computed by `get_slides_layout` (module
`layout`, not under `src/`): the title is drawn two cells below the top of
the content box, then the page-indicator block over the whole content box,
then one draw call per content item in declaration order. -/
def draw (s : Slides) (content : RectU16) : Option (List DrawCall) :=
  match get_slide s with
  | none => none
  | some slide =>
      let title_rect := RectU16.mk content.x ((content.y + 2) % U16)
        content.width content.height
      Option.map (fun calls =>
          DrawCall.title (make_title slide) title_rect ::
            DrawCall.contentBlock content :: calls)
        (draw_items s content slide.content 0)

/-! Concrete fixtures used by evaluation theorems and witnesses. -/

/-- A slide with no title and no content. -/
def slide0 : SlideJson := SlideJson.mk none []

/-- A deck of five empty slides. -/
def deck5 : SlidesJson := SlidesJson.mk (BoxSizeJson.mk 80 80) (List.replicate 5 slide0)

/-- A deck of three empty slides. -/
def deck3 : SlidesJson := SlidesJson.mk (BoxSizeJson.mk 80 80) (List.replicate 3 slide0)

/-- Component state showing slide 4 of the five-slide deck. -/
def s_on4 : Slides := Slides.mk "slides.json" (some deck5) 4 5 []

/-- Component state showing slide 0 of the three-slide deck. -/
def sLoaded : Slides := Slides.mk "slides.json" (some deck3) 0 3 []

/-- Component state with no deck loaded. -/
def sNone : Slides := Slides.mk "slides.json" none 0 0 []

/-- A sample content box. -/
def boxR : RectU16 := RectU16.mk 0 0 10 10

/-- A sample declared item rectangle. -/
def offR : RectU16 := RectU16.mk 1 1 2 2

/-! Helper lemmas shared between claims. -/

/-- The cache rebuild changes only the `images` field. -/
theorem store_images_preserves (s s' : Slides) (h : store_images s = some s') :
    s'.json_slides = s.json_slides ∧ s'.slides = s.slides ∧
      s'.slide_index = s.slide_index ∧ s'.slide_count = s.slide_count := by
  unfold store_images at h
  by_cases hj : s.json_slides = ""
  · rw [if_pos hj] at h
    exact absurd h (by simp)
  · rw [if_neg hj] at h
    cases hg : get_slide s with
    | none => rw [hg] at h; exact absurd h (by simp)
    | some slide =>
        rw [hg] at h
        have h' := Option.some.inj h
        rw [← h']
        exact ⟨rfl, rfl, rfl, rfl⟩

/-- On in-range indices of a representable deck, the wrapping `usize`
increment of `next_slide` is the mathematical successor modulo the count. -/
theorem next_index_eq (count i : Nat) (hi : i < count) (hcu : count < USIZE) :
    next_index count i = (i + 1) % count := by
  unfold next_index
  rw [Nat.mod_eq_of_lt (Nat.lt_of_le_of_lt (Nat.succ_le_of_lt hi) hcu)]

/-- For a non-empty representable deck, the wrapping decrement of
`previous_slide` is the conditional decrement of the spec. -/
theorem previous_index_eq (count i : Nat) (hc : 0 < count) (hcu : count < USIZE) :
    previous_index count i = if i = 0 then count - 1 else i - 1 := by
  unfold previous_index
  by_cases h : i = 0
  · rw [if_pos h, if_pos h]
    have h1 : (count + USIZE) - 1 = (count - 1) + USIZE := by omega
    rw [h1, Nat.add_mod_right, Nat.mod_eq_of_lt (by omega)]
  · rw [if_neg h, if_neg h]

/-- Iterating `next_index` adds the iteration count modulo `count`. -/
theorem next_index_iterate (count : Nat) (hc : 0 < count) (hcu : count < USIZE) :
    ∀ (k i : Nat), i < count →
      Nat.iterate (next_index count) k i = (i + k) % count := by
  intro k
  induction k with
  | zero => intro i hi; simp [Nat.mod_eq_of_lt hi]
  | succ k ih =>
      intro i hi
      rw [Function.iterate_succ_apply, ih (next_index count i) (Nat.mod_lt _ hc),
        next_index_eq count i hi hcu, Nat.mod_add_mod]
      have h1 : i + 1 + k = i + (k + 1) := by omega
      rw [h1]

/-! Claim theorems. -/

/-- C10: with no deck loaded (`slides` is `None`), `get_slide` does not
fail fast: it returns the default slide with no title and empty content,
whatever the current index is. -/
theorem C10_get_slide_default (s : Slides) (h : s.slides = none) :
    get_slide s = some (SlideJson.mk none []) := by
  unfold get_slide
  rw [h]

/-- C10 witness at a state with index 7 and no deck. -/
theorem C10_witness :
    get_slide (Slides.mk "a.json" none 7 0 []) = some (SlideJson.mk none []) :=
  C10_get_slide_default (Slides.mk "a.json" none 7 0 []) rfl

/-- C4: for every state with `slide_count > 0` (machine states: index in
range, count representable in `usize`), `next_slide` sets the index to
`(index + 1) % slide_count` and `previous_slide` sets it to
`slide_count - 1` when the index is `0` and to `index - 1` otherwise. -/
theorem C4_transition_formulas (s s1 s2 : Slides)
    (hc : 0 < s.slide_count) (hi : s.slide_index < s.slide_count)
    (hcu : s.slide_count < USIZE)
    (h1 : next_slide s = some s1) (h2 : previous_slide s = some s2) :
    s1.slide_index = (s.slide_index + 1) % s.slide_count ∧
      s2.slide_index =
        (if s.slide_index = 0 then s.slide_count - 1 else s.slide_index - 1) := by
  constructor
  · unfold next_slide at h1
    rw [if_neg (Nat.pos_iff_ne_zero.mp hc)] at h1
    have h := store_images_preserves _ _ h1
    rw [h.2.2.1]
    exact next_index_eq _ _ hi hcu
  · unfold previous_slide at h2
    have h := store_images_preserves _ _ h2
    rw [h.2.2.1]
    exact previous_index_eq _ _ hc hcu

/-- C4 witness on the three-slide deck at index 0. -/
theorem C4_witness :
    ∃ s1 s2 : Slides, next_slide sLoaded = some s1 ∧
      previous_slide sLoaded = some s2 ∧
      s1.slide_index = (sLoaded.slide_index + 1) % sLoaded.slide_count ∧
      s2.slide_index =
        (if sLoaded.slide_index = 0 then sLoaded.slide_count - 1
          else sLoaded.slide_index - 1) := by
  have h1 : next_slide sLoaded = some (Slides.mk "slides.json" (some deck3) 1 3 []) := by
    decide
  have h2 : previous_slide sLoaded =
      some (Slides.mk "slides.json" (some deck3) 2 3 []) := by
    decide
  exact ⟨_, _, h1, h2,
    C4_transition_formulas sLoaded _ _ (by decide) (by decide) (by decide) h1 h2⟩

/-- C7: for every `slide_count > 0` (representable) and every starting
index in range, applying the `Next` index transition `slide_count` times
returns to the original index. -/
theorem C7_next_cycle (count i : Nat) (hc : 0 < count) (hi : i < count)
    (hcu : count < USIZE) :
    Nat.iterate (next_index count) count i = i := by
  rw [next_index_iterate count hc hcu count i hi, Nat.add_mod_right,
    Nat.mod_eq_of_lt hi]

/-- C7 witness: three `Next` steps on a three-slide deck from index 1. -/
theorem C7_witness : Nat.iterate (next_index 3) 3 1 = 1 :=
  C7_next_cycle 3 1 (by decide) (by decide) (by decide)

/-- C8: on a non-empty (representable) deck, the `Previous` index
transition undoes `Next` and `Next` undoes `Previous`, at every index in
range. -/
theorem C8_next_previous_inverse (count i : Nat) (hc : 0 < count)
    (hi : i < count) (hcu : count < USIZE) :
    previous_index count (next_index count i) = i ∧
      next_index count (previous_index count i) = i := by
  constructor
  · rw [next_index_eq count i hi hcu, previous_index_eq count _ hc hcu]
    by_cases h : i + 1 = count
    · rw [h, Nat.mod_self, if_pos rfl]
      omega
    · have hlt : i + 1 < count := by omega
      rw [Nat.mod_eq_of_lt hlt, if_neg (Nat.succ_ne_zero i)]
      omega
  · rw [previous_index_eq count i hc hcu]
    by_cases h : i = 0
    · rw [if_pos h, next_index_eq count (count - 1) (by omega) hcu]
      have h1 : count - 1 + 1 = count := by omega
      rw [h1, Nat.mod_self, h]
    · rw [if_neg h, next_index_eq count (i - 1) (by omega) hcu]
      have h1 : i - 1 + 1 = i := by omega
      rw [h1, Nat.mod_eq_of_lt hi]

/-- C8 witness on a four-slide deck at index 2. -/
theorem C8_witness :
    previous_index 4 (next_index 4 2) = 2 ∧
      next_index 4 (previous_index 4 2) = 2 :=
  C8_next_previous_inverse 4 2 (by decide) (by decide) (by decide)

/-- C1: evaluation at the spec's own example. Reloading the five-slide
deck down to three slides while showing index 4 does not clamp the index
to 2: `get_json_slides` leaves `slide_index` at 4 with the new
`slide_count` 3, and the `Reload` branch of `update` then panics
(out-of-bounds slide lookup inside `store_images`). -/
theorem C1_reload_does_not_clamp :
    (get_json_slides s_on4 deck3).slide_index = 4 ∧
      (get_json_slides s_on4 deck3).slide_count = 3 ∧
      update s_on4 Action.Reload deck3 = none := by
  decide

/-- C2: evaluation showing the navigation invariant is not preserved by
`Reload`: from the valid state `index 4 of 5`, reloading to a three-slide
deck yields a navigation state with `slide_count = 3 > 0` whose index is
not below the count. -/
theorem C2_reload_breaks_invariant :
    0 < (get_json_slides s_on4 deck3).slide_count ∧
      ¬ (get_json_slides s_on4 deck3).slide_index <
          (get_json_slides s_on4 deck3).slide_count := by
  decide

/-- C5 counterexample: with no deck loaded, `get_slide_rect` ignores a
present item rectangle and returns the content box unchanged, not the
offset-and-resized rectangle the claim demands for every state. -/
theorem C5_counterexample :
    get_slide_rect sNone boxR (some offR) = boxR ∧
      get_slide_rect sNone boxR (some offR) ≠
        RectU16.mk ((boxR.x + offR.x) % U16) ((boxR.y + offR.y) % U16)
          offR.width offR.height := by
  decide

/-- C5 (amended): when a deck is loaded, resolving an absent item
rectangle returns the content box unchanged, and resolving a present one
returns a rectangle translated by the item origin (wrapping `u16`
addition) with exactly the item size. -/
theorem C5_resolve_rect (s : Slides) (box r : RectU16)
    (h : s.slides.isSome) :
    get_slide_rect s box none = box ∧
      get_slide_rect s box (some r) =
        RectU16.mk ((box.x + r.x) % U16) ((box.y + r.y) % U16)
          r.width r.height := by
  cases hs : s.slides with
  | none => rw [hs] at h; exact absurd h (by simp)
  | some d => exact ⟨by simp [get_slide_rect, hs], by simp [get_slide_rect, hs]⟩

/-- C5 witness on the loaded three-slide deck. -/
theorem C5_witness :
    get_slide_rect sLoaded boxR none = boxR ∧
      get_slide_rect sLoaded boxR (some offR) = RectU16.mk 1 1 2 2 := by
  have h := C5_resolve_rect sLoaded boxR offR (by decide)
  exact ⟨h.1, by rw [h.2]; decide⟩

/-- A `Line`-kind content item. -/
def itemLine : ContentJson :=
  ContentJson.mk SlideContentType.Line (some "hi") none none none

/-- An `Image`-kind content item with no declared rectangle. -/
def itemImg1 : ContentJson :=
  ContentJson.mk SlideContentType.Image (some "a.png") none none none

/-- An `Image`-kind content item with a declared rectangle. -/
def itemImg2 : ContentJson :=
  ContentJson.mk SlideContentType.Image (some "b.png")
    (some (RectU16.mk 1 1 2 2)) none none

/-- A slide mixing image and non-image items. -/
def slideMix : SlideJson :=
  SlideJson.mk (some "Intro") [itemImg1, itemLine, itemImg2]

/-- A one-slide deck holding `slideMix`. -/
def deckMix : SlidesJson := SlidesJson.mk (BoxSizeJson.mk 80 80) [slideMix]

/-- Component state showing `slideMix`. -/
def sMix : Slides := Slides.mk "slides.json" (some deckMix) 0 1 []

/-- An `Image`-kind item positioned at `(5,5)` with size `10x4`. -/
def imgItem : ContentJson :=
  ContentJson.mk SlideContentType.Image (some "img.png")
    (some (RectU16.mk 5 5 10 4)) none none

/-- A one-slide deck holding only `imgItem`. -/
def deckImg : SlidesJson :=
  SlidesJson.mk (BoxSizeJson.mk 80 80) [SlideJson.mk none [imgItem]]

/-- Component state for the image deck, with its cache already rebuilt. -/
def sImg : Slides :=
  Slides.mk "slides.json" (some deckImg) 0 1 [new_resize_protocol imgItem]

/-- The content box used in the draw-pass evaluations. -/
def cb : RectU16 := RectU16.mk 0 0 40 20

/-- A `Sparkline`-kind content item with no numeric data. -/
def sparkItem : ContentJson :=
  ContentJson.mk SlideContentType.Sparkline none none none none

/-- The cache-rebuild loop realises the map of handle preparation over the
`Image`-kind subsequence of the content list. -/
theorem store_images_loop_eq (js : String) (items : List ContentJson) :
    store_images_loop js items =
      (items.filter fun it =>
        it.type_ = SlideContentType.Image).map new_resize_protocol := by
  induction items with
  | nil => rfl
  | cons item rest ih =>
      by_cases h : item.type_ = SlideContentType.Image
      · simp [store_images_loop, h, make_slide_image, List.filter_cons, ih]
      · simp [store_images_loop, h, List.filter_cons, ih]

/-- C3: rebuilding the cache for the current slide leaves exactly one
prepared-image entry per `Image`-kind content item, in the same relative
order as those items appear in the slide's content. -/
theorem C3_store_images_cache (s : Slides) (slide : SlideJson)
    (hpath : ¬ s.json_slides = "") (hslide : get_slide s = some slide) :
    ∃ s', store_images s = some s' ∧
      s'.images.length =
        (slide.content.filter fun it =>
          it.type_ = SlideContentType.Image).length ∧
      s'.images.map PreparedImage.item =
        slide.content.filter fun it => it.type_ = SlideContentType.Image := by
  refine ⟨{ s with images := store_images_loop s.json_slides slide.content },
    ?_, ?_, ?_⟩
  · unfold store_images
    rw [if_neg hpath, hslide]
  · simp [store_images_loop_eq]
  · rw [store_images_loop_eq, List.map_map]
    have h : PreparedImage.item ∘ new_resize_protocol = id := rfl
    rw [h, List.map_id]

/-- C3 witness: rebuilding the cache for `slideMix` keeps its two image
items, first `a.png` then `b.png`. -/
theorem C3_witness :
    ∃ s', store_images sMix = some s' ∧
      s'.images.length =
        (slideMix.content.filter fun it =>
          it.type_ = SlideContentType.Image).length ∧
      s'.images.map PreparedImage.item =
        slideMix.content.filter fun it => it.type_ = SlideContentType.Image :=
  C3_store_images_cache sMix slideMix (by decide) (by decide)

/-- C6 counterexample: drawing the image deck at a 40x20 content box
emits the border rectangle `(4,4) 12x4` — height equal to the item's, not
grown by two — where the claim demands `(4,4) 12x6`. -/
theorem C6_counterexample :
    draw sImg cb = some
      [DrawCall.title "__title__" (RectU16.mk 0 2 40 20),
        DrawCall.contentBlock cb,
        DrawCall.imageBorder (RectU16.mk 4 4 12 4),
        DrawCall.image (new_resize_protocol imgItem) (RectU16.mk 5 5 10 4)] ∧
      RectU16.mk 4 4 12 4 ≠ RectU16.mk 4 4 12 6 := by
  decide

/-- C6 (amended): for an `Image`-kind item reached with running image
counter `k` backed by a cached handle, the draw loop first emits a framed
border whose origin is one cell up and left of the item rectangle and
whose width is two cells larger (wrapping `u16` arithmetic) with the
height unchanged, then emits the `k`-th sequential prepared handle drawn
inside the item rectangle, and continues with the counter advanced. -/
theorem C6_image_draw (s : Slides) (content : RectU16) (item : ContentJson)
    (rest : List ContentJson) (k : Nat) (img : PreparedImage)
    (htype : item.type_ = SlideContentType.Image)
    (himg : s.images[k]? = some img) :
    draw_items s content (item :: rest) k =
      Option.map (fun tail =>
          DrawCall.imageBorder
            (RectU16.mk
              (((get_slide_rect s content item.rect).x + (U16 - 1)) % U16)
              (((get_slide_rect s content item.rect).y + (U16 - 1)) % U16)
              (((get_slide_rect s content item.rect).width + 2) % U16)
              (get_slide_rect s content item.rect).height) ::
            DrawCall.image img (get_slide_rect s content item.rect) :: tail)
        (draw_items s content rest (k + 1)) := by
  simp [draw_items, make_slide_content, htype, make_slide_image, himg]

/-- C6 witness: the image deck's single item, drawn with counter 0. -/
theorem C6_witness :
    draw_items sImg cb [imgItem] 0 = some
      [DrawCall.imageBorder (RectU16.mk 4 4 12 4),
        DrawCall.image (new_resize_protocol imgItem) (RectU16.mk 5 5 10 4)] := by
  rw [C6_image_draw sImg cb imgItem [] 0 (new_resize_protocol imgItem)
    (by decide) (by decide)]
  decide

/-- C9: optional fields resolve to their documented defaults without
error: a slide with no title gets the fixed placeholder `"__title__"`, and
a `Sparkline` item with no numeric data is drawn bound to the empty
series. -/
theorem C9_optional_defaults :
    (∀ slide : SlideJson, slide.title = none →
      make_title slide = "__title__") ∧
    (∀ (s : Slides) (content : RectU16) (item : ContentJson)
        (rest : List ContentJson) (k : Nat),
      item.type_ = SlideContentType.Sparkline → item.data = none →
      draw_items s content (item :: rest) k =
        Option.map (fun tail =>
            DrawCall.sparkline [] (get_slide_rect s content item.rect) :: tail)
          (draw_items s content rest k)) := by
  constructor
  · intro slide h
    unfold make_title
    rw [h]
  · intro s content item rest k ht hd
    simp [draw_items, make_slide_content, ht, resolve_data, hd]

/-- C9 witness: the untitled empty slide and a dataless sparkline item. -/
theorem C9_witness :
    make_title (SlideJson.mk none []) = "__title__" ∧
      draw_items sNone boxR [sparkItem] 0 =
        some [DrawCall.sparkline [] boxR] := by
  refine ⟨C9_optional_defaults.1 (SlideJson.mk none []) rfl, ?_⟩
  rw [C9_optional_defaults.2 sNone boxR sparkItem [] 0 rfl rfl]
  decide

end TuiSlides
